import Mathlib

/-!
Shallow embedding of `pkg/infra/tracing/opentelemetry_tracing.go`:
the tracing abstraction service (config parsing, provider/exporter
construction, global tracer installation, span adapters, run/shutdown).
Machine-level details owned by external libraries (the otel SDK, the
opentracing client, the jaeger exporter, the go-ini reader) are modelled
at their documented interface boundary; each such definition carries a
doc comment saying so.
-/

set_option linter.unusedVariables false

namespace Tracing

/-- Typed values of `attribute.Value` (the otel attribute payload). -/
inductive AttrValue
  | str (s : String)
  | int (i : Int)
  | bool (b : Bool)
  deriving DecidableEq, Repr

/-- `attribute.KeyValue`: a typed attribute key/value pair. -/
structure KeyValue where
  key : String
  value : AttrValue
  deriving DecidableEq, Repr

/-- A Go `interface\x7b\x7d` value as it reaches the legacy `SetTag` call:
the code may hand over a whole `KeyValue` struct or a bare value. -/
inductive GoValue
  | ofKeyValue (p : KeyValue)
  | ofAttr (v : AttrValue)
  deriving DecidableEq, Repr

/-- `fmt.Sprint` applied to an int loop index: its decimal string. -/
def fmtSprintIndex (k : Nat) : String := toString k

/-- Span identity (trace/span id), abstracted to a number. -/
abbrev SpanId := Nat

/-- A Go `context.Context` as used by this file: it may carry a
cancellation instant (for `Run`) and an active span (for `Start`). -/
structure Context where
  cancelledAt : Option Nat
  activeSpan : Option SpanId
  deriving DecidableEq, Repr

/-- `context.Background()`: never cancelled, no active span. -/
def contextBackground : Context := ⟨none, none⟩

/-- A context produced by `context.WithTimeout(parent, seconds)`. -/
structure TimeoutCtx where
  parent : Context
  timeoutSeconds : Nat
  deriving DecidableEq, Repr

/-- `context.WithTimeout`: bounds the parent context by a deadline. -/
def contextWithTimeout (parent : Context) (secs : Nat) : TimeoutCtx :=
  ⟨parent, secs⟩

/- ------------------------------------------------------------------
Legacy (opentracing) span adapter.
------------------------------------------------------------------ -/

/-- Modelled from the spec: the legacy `opentracing.Span` record — an
operation name, flat string-keyed tags, a finished flag, and the parent
relation recorded at creation (§4.5, §3). -/
structure OpentracingRawSpan where
  sid : SpanId
  opName : String
  parent : Option SpanId
  tags : List (String × GoValue)
  finished : Bool
  deriving DecidableEq, Repr

/-- Modelled from the spec: the legacy `span.SetTag(key, value)` call —
appends one flat tag (§4.5). -/
def OpentracingRawSpan.SetTag (s : OpentracingRawSpan) (k : String) (v : GoValue) :
    OpentracingRawSpan :=
  { s with tags := s.tags ++ [(k, v)] }

/-- Modelled from the spec: the legacy `span.Finish()` call (§4.5). -/
def OpentracingRawSpan.Finish (s : OpentracingRawSpan) : OpentracingRawSpan :=
  { s with finished := true }

/-- `OpentracingSpan`: the adapter wrapping a legacy span. -/
structure OpentracingSpan where
  span : OpentracingRawSpan
  deriving DecidableEq, Repr

/-- `OpentracingSpan.End`: delegates to the legacy Finish. -/
def OpentracingSpan.End (s : OpentracingSpan) : OpentracingSpan :=
  ⟨s.span.Finish⟩

/-- `OpentracingSpan.SetAttributes`: the Go body is
`for k, v := range kv \x7b s.span.SetTag(fmt.Sprint(k), v) \x7d`.
A Go `range` over a slice binds `k` to the INDEX and `v` to the element,
so each call is `SetTag(fmt.Sprint(index), wholePair)`. -/
def OpentracingSpan.SetAttributes (s : OpentracingSpan) (kv : List KeyValue) :
    OpentracingSpan :=
  ⟨kv.enum.foldl (fun sp p => sp.SetTag (fmtSprintIndex p.1) (GoValue.ofKeyValue p.2)) s.span⟩

/-- A fresh legacy span used as a concrete evaluation input. -/
def c1FreshLegacySpan : OpentracingSpan := ⟨⟨0, "op", none, [], false⟩⟩

/-- The single concrete attribute pair used as a concrete evaluation input. -/
def c1Pair : KeyValue := ⟨"foo", AttrValue.str "bar"⟩

/- ------------------------------------------------------------------
Configuration (go-ini, at its interface boundary) and the service.
------------------------------------------------------------------ -/

/-- Modelled from the spec: one section of the ini configuration file,
a flat list of key/raw-string-value entries (§6). -/
structure IniSection where
  keys : List (String × String)
  deriving DecidableEq, Repr

/-- Modelled from the spec: `section.Key(name)` auto-creates a missing key
with the empty raw value, so reading yields the stored value or "". -/
def IniSection.getValue (s : IniSection) (name : String) : String :=
  ((s.keys.find? (fun p => p.1 == name)).map Prod.snd).getD ""

/-- Raw strings the go-ini reader accepts as boolean true. -/
def goIniTrueStrings : List String :=
  ["1", "t", "T", "true", "TRUE", "True", "YES", "yes", "Yes", "y", "ON", "on", "On"]

/-- Raw strings the go-ini reader accepts as boolean false. -/
def goIniFalseStrings : List String :=
  ["0", "f", "F", "false", "FALSE", "False", "NO", "no", "No", "n", "OFF", "off", "Off"]

/-- Modelled from the spec: go-ini boolean parsing of a raw value. -/
def goIniParseBool (v : String) : Option Bool :=
  if goIniTrueStrings.contains v then some true
  else if goIniFalseStrings.contains v then some false
  else none

/-- Modelled from the spec: `key.MustBool(dflt)` — the parsed boolean, or
the default when the raw value does not parse (§4.3: default false). -/
def IniSection.MustBool (s : IniSection) (name : String) (dflt : Bool) : Bool :=
  (goIniParseBool (s.getValue name)).getD dflt

/-- Modelled from the spec: the raw ini file, a list of named sections. -/
structure IniFile where
  sections : List (String × IniSection)
  deriving DecidableEq, Repr

/-- Modelled from the spec: `file.GetSection(name)` — the section, or an
error when it is absent (§4.3 step 1). -/
def IniFile.GetSection (f : IniFile) (name : String) : Except String IniSection :=
  match f.sections.find? (fun p => p.1 == name) with
  | some p => Except.ok p.2
  | none => Except.error ("section does not exist: " ++ name)

/-- `setting.Cfg`, restricted to the field this file reads. -/
structure Cfg where
  Raw : IniFile
  deriving DecidableEq, Repr

/-- Modelled from the spec: the jaeger exporter, bound to the collector
endpoint it was constructed with (§4.3 step 2, §6). -/
structure JaegerExporter where
  collectorEndpoint : String
  deriving DecidableEq, Repr

/-- `tracesdk.TracerProvider` as built here: the exporter wrapped with
`WithBatcher` plus the fixed resource attributes. -/
structure TracerProvider where
  batchedExporter : JaegerExporter
  resource : List KeyValue
  deriving DecidableEq, Repr

/-- `OpentelemetryTracingService`: the service struct (the logger is
omitted; it carries no claim-relevant state). -/
structure OpentelemetryTracingService where
  enabled : Bool
  address : String
  tracerProvider : Option TracerProvider
  Cfg : Cfg
  deriving DecidableEq, Repr

/-- `parseSettingsOpentelemetry`: reads section
"tracing.opentelemetry.jaeger" (propagating its lookup error) and sets
`enabled := section.Key("enabled").MustBool(false)`. No other field of the
service is assigned. -/
def parseSettingsOpentelemetry (ts : OpentelemetryTracingService) :
    Except String OpentelemetryTracingService :=
  match ts.Cfg.Raw.GetSection "tracing.opentelemetry.jaeger" with
  | Except.error err => Except.error err
  | Except.ok sec => Except.ok { ts with enabled := sec.MustBool "enabled" false }

/-- The fixed resource attributes of the provider: service name "grafana"
and environment "production". -/
def grafanaResource : List KeyValue :=
  [⟨"service.name", AttrValue.str "grafana"⟩,
   ⟨"environment", AttrValue.str "production"⟩]

/-- `initTracerProvider`: builds the jaeger exporter bound to
`ts.address` (the exporter constructor is external library code, passed
as a parameter), propagating its error; on success wraps the exporter in
a batching pipeline with the fixed resource. -/
def initTracerProvider (newExporter : String → Except String JaegerExporter)
    (ts : OpentelemetryTracingService) : Except String TracerProvider :=
  match newExporter ts.address with
  | Except.error err => Except.error err
  | Except.ok exp => Except.ok ⟨exp, grafanaResource⟩

/- ------------------------------------------------------------------
The otel global state and the global tracer reference.
------------------------------------------------------------------ -/

/-- The process-wide otel tracer provider: the library default is a
no-op provider, replaced by `otel.SetTracerProvider` with the sdk one. -/
inductive OtelProvider
  | noop
  | sdk (tp : TracerProvider)
  deriving DecidableEq, Repr

/-- A `trace.Tracer` obtained from a provider via `provider.Tracer(name)`:
it remembers its source provider and instrumentation name. -/
structure TracerRef where
  source : OtelProvider
  name : String
  deriving DecidableEq, Repr

/-- `otel.GetTracerProvider().Tracer(name)` against a global provider. -/
def otelGetTracer (g : OtelProvider) (name : String) : TracerRef := ⟨g, name⟩

/-- The mutable globals this file writes: the otel global provider and the
package variable `GlobalTracer` (a nil-able interface, hence `Option`). -/
structure InitState where
  otelGlobal : OtelProvider
  globalTracer : Option TracerRef
  deriving DecidableEq, Repr

/-- Process start: the otel global defaults to the no-op provider and the
`GlobalTracer` package variable holds its zero value, nil. -/
def initialInitState : InitState := ⟨OtelProvider.noop, none⟩

/-- `initOpentelemetryTracer`: builds the provider (propagating its
error); registers it as the otel global only when `enabled`; then always
assigns `GlobalTracer = otel.GetTracerProvider().Tracer("component-main")`.
The built provider is not stored on the service. -/
def initOpentelemetryTracer (newExporter : String → Except String JaegerExporter)
    (ots : OpentelemetryTracingService) (st : InitState) : Except String InitState :=
  match initTracerProvider newExporter ots with
  | Except.error e => Except.error e
  | Except.ok tp =>
    let g := if ots.enabled then OtelProvider.sdk tp else st.otelGlobal
    Except.ok ⟨g, some (otelGetTracer g "component-main")⟩

/- ------------------------------------------------------------------
Spans and Start.
------------------------------------------------------------------ -/

/-- The otel span record: identity, name, parent recorded at creation,
whether it records (spans of the no-op provider do not), attributes,
and the ended flag. -/
structure SpanData where
  sid : SpanId
  name : String
  parent : Option SpanId
  recording : Bool
  attrs : List KeyValue
  ended : Bool
  deriving DecidableEq, Repr

/-- Modelled from the spec: `span.SetAttributes` of the otel SDK appends
the pairs on a recording span and is a no-op on a no-op span (§4.2, §8). -/
def SpanData.setAttributes (s : SpanData) (kvs : List KeyValue) : SpanData :=
  if s.recording then { s with attrs := s.attrs ++ kvs } else s

/-- Modelled from the spec: `span.End()` of the otel SDK marks the span
complete (§4.2). -/
def SpanData.End (s : SpanData) : SpanData := { s with ended := true }

/-- Modelled from the spec: a span is handed to the batching pipeline for
export exactly when it is a recording span that has ended; a span of the
no-op provider is never exported (§4.3 step 4, §8). -/
def SpanData.exportedOnEnd (s : SpanData) : Bool := s.recording && s.ended

/-- Whether spans of this tracer record (the no-op provider's do not). -/
def TracerRef.isRecording (t : TracerRef) : Bool :=
  match t.source with
  | OtelProvider.noop => false
  | OtelProvider.sdk _ => true

/-- Modelled from the spec: `tracer.Start(ctx, name)` of the otel SDK —
the new span's parent is the context's active span (root span when there
is none) and the returned context carries the new span as active (§3,
§4.1). The fresh span identity is supplied by the caller. -/
def TracerRef.Start (t : TracerRef) (ctx : Context) (name : String) (fresh : SpanId) :
    Context × SpanData :=
  ({ ctx with activeSpan := some fresh },
   ⟨fresh, name, ctx.activeSpan, t.isRecording, [], false⟩)

/-- `trace.SpanStartOption` values a caller may pass to `Start`. -/
inductive SpanStartOption
  | withNewRoot
  | withAttributes (kvs : List KeyValue)
  deriving DecidableEq, Repr

/-- `OpentelemetrySpan`: the adapter wrapping an otel span. -/
structure OpentelemetrySpan where
  span : SpanData
  deriving DecidableEq, Repr

/-- `OpentelemetrySpan.End`: delegates to the otel span End. -/
def OpentelemetrySpan.End (s : OpentelemetrySpan) : OpentelemetrySpan :=
  ⟨s.span.End⟩

/-- `OpentelemetrySpan.SetAttributes`: delegates to the otel span. -/
def OpentelemetrySpan.SetAttributes (s : OpentelemetrySpan) (kv : List KeyValue) :
    OpentelemetrySpan :=
  ⟨s.span.setAttributes kv⟩

/-- `OpentelemetryTracingService.Start`: calls
`GlobalTracer.Start(ctx, spanName)` — the variadic `opts` are accepted but
not forwarded. `GlobalTracer` is the nil-able package variable, passed
explicitly; when it is nil the Go call dereferences a nil interface, a
runtime panic, modelled as the `none` result. -/
def OpentelemetryTracingService.Start (ts : OpentelemetryTracingService)
    (globalTracer : Option TracerRef) (ctx : Context) (spanName : String)
    (opts : List SpanStartOption) (fresh : SpanId) :
    Option (Context × OpentelemetrySpan) :=
  match globalTracer with
  | none => none
  | some t =>
    let r := t.Start ctx spanName fresh
    some (r.1, ⟨r.2⟩)

/-- The legacy `TracingService` struct; its fields live outside this file
and are unused by the `Start` method embedded here. -/
structure TracingService where
  placeholder : Unit
  deriving DecidableEq, Repr

/-- Modelled from the spec: `opentracing.StartSpanFromContext` — the new
legacy span's parent is the context's active span and the returned context
carries the new span as active (§4.5, §3). Returns (span, ctx) in the
source's order. -/
def opentracingStartSpanFromContext (ctx : Context) (name : String) (fresh : SpanId) :
    OpentracingRawSpan × Context :=
  (⟨fresh, name, ctx.activeSpan, [], false⟩,
   { ctx with activeSpan := some fresh })

/-- `TracingService.Start` (legacy variant): delegates to
`opentracing.StartSpanFromContext` and wraps the span. -/
def TracingService.Start (lts : TracingService) (ctx : Context) (spanName : String)
    (opts : List SpanStartOption) (fresh : SpanId) : Context × OpentracingSpan :=
  let r := opentracingStartSpanFromContext ctx spanName fresh
  (r.2, ⟨r.1⟩)

/- ------------------------------------------------------------------
Run / shutdown.
------------------------------------------------------------------ -/

/-- What a finished `Run` did: the timeout contexts passed to the
provider's shutdown (in order), and the returned error or nil. -/
structure RunOutcome where
  shutdownCalls : List TimeoutCtx
  result : Except String Unit
  deriving Repr

/-- `OpentelemetryTracingService.Run`: blocks on `<-ctx.Done()` — when the
context is never cancelled, `Run` never returns, modelled as the `none`
outcome. On cancellation it logs, builds
`context.WithTimeout(context.Background(), 5 seconds)`, calls the
provider's shutdown once with it (the sdk shutdown is external library
code, passed as a parameter and given the service's provider field), and
returns that error, or nil on success. -/
def OpentelemetryTracingService.Run (ots : OpentelemetryTracingService)
    (providerShutdown : Option TracerProvider → TimeoutCtx → Except String Unit)
    (ctx : Context) : Option RunOutcome :=
  match ctx.cancelledAt with
  | none => none
  | some _ =>
    match providerShutdown ots.tracerProvider (contextWithTimeout contextBackground 5) with
    | Except.error e =>
        some ⟨[contextWithTimeout contextBackground 5], Except.error e⟩
    | Except.ok _ =>
        some ⟨[contextWithTimeout contextBackground 5], Except.ok ()⟩

/- ------------------------------------------------------------------
Concrete sample inputs for witnesses and counterexamples.
------------------------------------------------------------------ -/

/-- A concrete tracing section: enabled, with a collector endpoint. -/
def c2Section : IniSection :=
  ⟨[("enabled", "true"), ("endpoint", "http://collector:14268")]⟩

/-- A concrete configuration holding only the tracing section. -/
def c2Cfg : Cfg := ⟨⟨[("tracing.opentelemetry.jaeger", c2Section)]⟩⟩

/-- A freshly constructed service over that configuration: zero values
for every field the constructor does not set. -/
def c2Service : OpentelemetryTracingService :=
  ⟨false, "", none, c2Cfg⟩

/-- An exporter constructor that always succeeds, binding the exporter to
the endpoint it was given. -/
def sampleExporterOk : String → Except String JaegerExporter :=
  fun addr => Except.ok ⟨addr⟩

/-- A provider shutdown that always succeeds. -/
def sampleShutdownOk : Option TracerProvider → TimeoutCtx → Except String Unit :=
  fun _ _ => Except.ok ()

/-- A provider shutdown that always fails (a flush error, or the
deadline-exceeded error of the timed-out shutdown context). -/
def sampleShutdownFail : Option TracerProvider → TimeoutCtx → Except String Unit :=
  fun _ _ => Except.error "context deadline exceeded"

/-- A context that has been cancelled (at instant 0). -/
def cancelledCtx : Context := ⟨some 0, none⟩

end Tracing

namespace Tracing

/-- Claim C1 (evaluated at the failing input): on a fresh legacy span,
`SetAttributes` with the single pair (key "foo", value "bar") performs one
set-tag call whose tag key is "0" (the decimal loop index) and whose tag
value is the entire KeyValue pair — not the tag (key "foo", value "bar")
the claim describes. -/
theorem c1_setAttributes_failing_input :
    (c1FreshLegacySpan.SetAttributes [c1Pair]).span.tags
        = [("0", GoValue.ofKeyValue c1Pair)]
    ∧ (c1FreshLegacySpan.SetAttributes [c1Pair]).span.tags
        ≠ [("foo", GoValue.ofAttr (AttrValue.str "bar"))] := by
  constructor
  · rfl
  · decide

/-- Claim C2 is false as stated, at a concrete input: for a freshly
constructed service over a configuration whose tracing section holds
enabled = true and endpoint = "http://collector:14268", settings parsing
succeeds, yet the service's address field is the unchanged empty string,
not the configured endpoint — the endpoint is never extracted. -/
theorem c2_endpoint_counterexample :
    parseSettingsOpentelemetry c2Service
        = Except.ok { c2Service with enabled := true }
    ∧ ({ c2Service with enabled := true } : OpentelemetryTracingService).address = ""
    ∧ ("" : String) ≠ "http://collector:14268" := by
  refine ⟨rfl, rfl, by decide⟩

/-- Claim C2 (amended): service construction extracts only the `enabled`
flag (with default false) from section "tracing.opentelemetry.jaeger",
and returns an error aborting construction exactly when the section
lookup fails; the collector endpoint is never read, so on success the
enabled field reflects the configured value while every other field —
the address included — is unchanged. -/
theorem c2_parseSettings_amended (ts : OpentelemetryTracingService) :
    (∀ e, ts.Cfg.Raw.GetSection "tracing.opentelemetry.jaeger" = Except.error e →
        parseSettingsOpentelemetry ts = Except.error e)
    ∧ (∀ sec, ts.Cfg.Raw.GetSection "tracing.opentelemetry.jaeger" = Except.ok sec →
        parseSettingsOpentelemetry ts =
          Except.ok { ts with enabled := sec.MustBool "enabled" false }) := by
  constructor
  · intro e he
    unfold parseSettingsOpentelemetry
    rw [he]
  · intro sec hs
    unfold parseSettingsOpentelemetry
    rw [hs]

/-- Witness for the amended claim C2 at a concrete configuration. -/
theorem c2_parseSettings_amended_witness :
    parseSettingsOpentelemetry c2Service =
      Except.ok { c2Service with enabled := c2Section.MustBool "enabled" false } :=
  (c2_parseSettings_amended c2Service).2 c2Section rfl

/-- Claim C3: when initialization succeeds from the default global state
(no-op otel provider), then with enabled = true the global tracer
reference is sourced from the constructed provider, and with enabled =
false it is still a valid (non-nil) tracer sourced from the no-op
provider: Start through it returns a usable span, and that span — after
any SetAttributes and End — is never handed to the export pipeline. -/
theorem c3_globalTracer_after_init
    (newExporter : String → Except String JaegerExporter)
    (ots : OpentelemetryTracingService) (st st' : InitState)
    (hnoop : st.otelGlobal = OtelProvider.noop)
    (h : initOpentelemetryTracer newExporter ots st = Except.ok st') :
    (∀ tp, ots.enabled = true → initTracerProvider newExporter ots = Except.ok tp →
        st'.globalTracer = some (otelGetTracer (OtelProvider.sdk tp) "component-main"))
    ∧ (ots.enabled = false →
        st'.globalTracer = some (otelGetTracer OtelProvider.noop "component-main")
        ∧ ∀ (ts2 : OpentelemetryTracingService) (ctx : Context) (n : String)
            (opts : List SpanStartOption) (fresh : SpanId) (kvs : List KeyValue),
            (OpentelemetryTracingService.Start ts2 st'.globalTracer ctx n opts fresh).isSome
              = true
            ∧ ∀ ctx' sp,
                OpentelemetryTracingService.Start ts2 st'.globalTracer ctx n opts fresh
                  = some (ctx', sp) →
                SpanData.exportedOnEnd ((sp.SetAttributes kvs).End).span = false) := by
  unfold initOpentelemetryTracer at h
  cases hp : initTracerProvider newExporter ots with
  | error e =>
    rw [hp] at h
    cases h
  | ok tp =>
    rw [hp] at h
    have hst : st' = ⟨(if ots.enabled then OtelProvider.sdk tp else st.otelGlobal),
        some (otelGetTracer
          (if ots.enabled then OtelProvider.sdk tp else st.otelGlobal)
          "component-main")⟩ :=
      (Except.ok.inj h).symm
    subst hst
    constructor
    · intro tp2 hen htp2
      have htp : tp = tp2 := Except.ok.inj htp2
      subst htp
      simp [hen]
    · intro hen
      constructor
      · simp [hen, hnoop]
      · intro ts2 ctx n opts fresh kvs
        constructor
        · simp [hen, hnoop, OpentelemetryTracingService.Start]
        · intro ctx' sp hstart
          simp [hen, hnoop, OpentelemetryTracingService.Start, TracerRef.Start,
            otelGetTracer] at hstart
          obtain ⟨hc, hsp⟩ := hstart
          subst hsp
          simp [OpentelemetrySpan.SetAttributes, OpentelemetrySpan.End,
            SpanData.setAttributes, SpanData.End, SpanData.exportedOnEnd,
            TracerRef.isRecording]

/-- Witness for claim C3 at a concrete disabled configuration. -/
theorem c3_globalTracer_after_init_witness :
    (⟨OtelProvider.noop, some (otelGetTracer OtelProvider.noop "component-main")⟩
        : InitState).globalTracer
      = some (otelGetTracer OtelProvider.noop "component-main") :=
  ((c3_globalTracer_after_init sampleExporterOk c2Service initialInitState
      ⟨OtelProvider.noop, some (otelGetTracer OtelProvider.noop "component-main")⟩
      rfl rfl).2 rfl).1

/-- Claim C4: Run blocks until its context is cancelled (when the context
is never cancelled, Run never returns) and only then invokes the
provider's shutdown, passing it exactly one timeout context of 5 seconds
built over the background context, whose cancellation is none — i.e. the
shutdown bound is independent of the already-cancelled parent context. -/
theorem c4_run_blocks_then_shutdown
    (ots : OpentelemetryTracingService)
    (sh : Option TracerProvider → TimeoutCtx → Except String Unit)
    (ctx : Context) (T : Nat) (h : ctx.cancelledAt = some T) :
    OpentelemetryTracingService.Run ots sh ctx =
      some ⟨[contextWithTimeout contextBackground 5],
            sh ots.tracerProvider (contextWithTimeout contextBackground 5)⟩
    ∧ (contextWithTimeout contextBackground 5).parent.cancelledAt = none
    ∧ (∀ ctx2 : Context, ctx2.cancelledAt = none →
        OpentelemetryTracingService.Run ots sh ctx2 = none) := by
  refine ⟨?_, rfl, ?_⟩
  · unfold OpentelemetryTracingService.Run
    rw [h]
    cases hsh : sh ots.tracerProvider (contextWithTimeout contextBackground 5) with
    | error e => simp [hsh]
    | ok u => cases u; simp [hsh]
  · intro ctx2 h2
    unfold OpentelemetryTracingService.Run
    rw [h2]

/-- Witness for claim C4 at a concrete cancelled context. -/
theorem c4_run_blocks_then_shutdown_witness :
    OpentelemetryTracingService.Run c2Service sampleShutdownOk cancelledCtx =
      some ⟨[contextWithTimeout contextBackground 5],
            sampleShutdownOk c2Service.tracerProvider
              (contextWithTimeout contextBackground 5)⟩ :=
  (c4_run_blocks_then_shutdown c2Service sampleShutdownOk cancelledCtx 0 rfl).1

/-- Claim C5: once its context is cancelled, Run terminates in every
case, performs the provider shutdown exactly once (never retried), and
returns an error if and only if that shutdown call fails (including the
deadline-exceeded error of the timed-out shutdown context), returning
nil success otherwise. -/
theorem c5_run_error_iff_shutdown_error
    (ots : OpentelemetryTracingService)
    (sh : Option TracerProvider → TimeoutCtx → Except String Unit)
    (ctx : Context) (T : Nat) (h : ctx.cancelledAt = some T) :
    (OpentelemetryTracingService.Run ots sh ctx).isSome = true
    ∧ ∀ out, OpentelemetryTracingService.Run ots sh ctx = some out →
        out.shutdownCalls.length = 1
        ∧ (∀ e, out.result = Except.error e ↔
            sh ots.tracerProvider (contextWithTimeout contextBackground 5)
              = Except.error e)
        ∧ (out.result = Except.ok () ↔
            sh ots.tracerProvider (contextWithTimeout contextBackground 5)
              = Except.ok ()) := by
  unfold OpentelemetryTracingService.Run
  rw [h]
  cases hsh : sh ots.tracerProvider (contextWithTimeout contextBackground 5) with
  | error e =>
    refine ⟨rfl, ?_⟩
    intro out hout
    have ho : out = ⟨[contextWithTimeout contextBackground 5], Except.error e⟩ :=
      (Option.some.inj hout).symm
    subst ho
    refine ⟨rfl, ?_, ?_⟩
    · intro e2
      simp [hsh]
    · simp [hsh]
  | ok u =>
    cases u
    refine ⟨rfl, ?_⟩
    intro out hout
    have ho : out = ⟨[contextWithTimeout contextBackground 5], Except.ok ()⟩ :=
      (Option.some.inj hout).symm
    subst ho
    refine ⟨rfl, ?_, ?_⟩
    · intro e2
      simp [hsh]
    · simp [hsh]

/-- Witness for claim C5 at a concrete cancelled context with a failing
shutdown. -/
theorem c5_run_error_iff_shutdown_error_witness :
    (OpentelemetryTracingService.Run c2Service sampleShutdownFail cancelledCtx).isSome
      = true :=
  (c5_run_error_iff_shutdown_error c2Service sampleShutdownFail cancelledCtx 0 rfl).1

/-- Claim C6: once the global tracer reference has been initialized (it
is non-nil — the ordering contract of the spec), Start never fails for
any context, span name, options, and span identity: it returns a derived
context and a span on which SetAttributes and End are defined and End
marks the span ended, whether the backend tracer is the sdk one or the
no-op one. -/
theorem c6_start_never_fails (ts : OpentelemetryTracingService)
    (g : Option TracerRef) (t : TracerRef) (h : g = some t)
    (ctx : Context) (n : String) (opts : List SpanStartOption) (fresh : SpanId)
    (kvs : List KeyValue) :
    (OpentelemetryTracingService.Start ts g ctx n opts fresh).isSome = true
    ∧ ∀ ctx' sp, OpentelemetryTracingService.Start ts g ctx n opts fresh
        = some (ctx', sp) →
        ((sp.SetAttributes kvs).End).span.ended = true := by
  subst h
  constructor
  · rfl
  · intro ctx' sp hs
    simp [OpentelemetryTracingService.Start] at hs
    obtain ⟨hc, hsp⟩ := hs
    subst hsp
    simp [OpentelemetrySpan.SetAttributes, OpentelemetrySpan.End, SpanData.End,
      SpanData.setAttributes, TracerRef.Start]

/-- Witness for claim C6 at a concrete initialized tracer. -/
theorem c6_start_never_fails_witness :
    (OpentelemetryTracingService.Start c2Service
        (some (otelGetTracer OtelProvider.noop "component-main"))
        contextBackground "op" [] 1).isSome = true :=
  (c6_start_never_fails c2Service
      (some (otelGetTracer OtelProvider.noop "component-main"))
      (otelGetTracer OtelProvider.noop "component-main") rfl
      contextBackground "op" [] 1 []).1

/-- Claim C7: provider initialization passes the service's address field
to the exporter constructor and fails exactly when that construction
fails, propagating its error; on success the returned provider wraps the
constructed exporter in the batching pipeline with the fixed resource. -/
theorem c7_initTracerProvider_spec
    (newExporter : String → Except String JaegerExporter)
    (ts : OpentelemetryTracingService) :
    (∀ e, newExporter ts.address = Except.error e →
        initTracerProvider newExporter ts = Except.error e)
    ∧ (∀ exp, newExporter ts.address = Except.ok exp →
        initTracerProvider newExporter ts = Except.ok ⟨exp, grafanaResource⟩) := by
  constructor
  · intro e he
    unfold initTracerProvider
    rw [he]
  · intro exp he
    unfold initTracerProvider
    rw [he]

/-- Witness for claim C7 at a concrete succeeding exporter constructor. -/
theorem c7_initTracerProvider_spec_witness :
    initTracerProvider sampleExporterOk c2Service =
      Except.ok ⟨⟨""⟩, grafanaResource⟩ :=
  (c7_initTracerProvider_spec sampleExporterOk c2Service).2 ⟨""⟩ rfl

/-- Claim C8: for both variants (modern Start through an initialized
global tracer, and the legacy TracingService.Start), a context carrying
an active span S yields a new span whose recorded parent is S and a
returned context whose active span is the new span; a context with no
active span yields a root span (no parent). -/
theorem c8_start_parenting (ts : OpentelemetryTracingService) (lts : TracingService)
    (g : Option TracerRef) (t : TracerRef) (h : g = some t)
    (ctx : Context) (n : String) (opts : List SpanStartOption) (fresh : SpanId) :
    (∀ s, ctx.activeSpan = some s →
        (∀ ctx' sp, OpentelemetryTracingService.Start ts g ctx n opts fresh
            = some (ctx', sp) →
            sp.span.parent = some s ∧ ctx'.activeSpan = some fresh)
        ∧ ((lts.Start ctx n opts fresh).2.span.parent = some s
           ∧ (lts.Start ctx n opts fresh).1.activeSpan = some fresh))
    ∧ (ctx.activeSpan = none →
        (∀ ctx' sp, OpentelemetryTracingService.Start ts g ctx n opts fresh
            = some (ctx', sp) →
            sp.span.parent = none)
        ∧ (lts.Start ctx n opts fresh).2.span.parent = none) := by
  subst h
  constructor
  · intro s hs
    constructor
    · intro ctx' sp hst
      simp [OpentelemetryTracingService.Start] at hst
      obtain ⟨hc, hsp⟩ := hst
      subst hc
      subst hsp
      simp [TracerRef.Start, hs]
    · simp [TracingService.Start, opentracingStartSpanFromContext, hs]
  · intro hs
    constructor
    · intro ctx' sp hst
      simp [OpentelemetryTracingService.Start] at hst
      obtain ⟨hc, hsp⟩ := hst
      subst hsp
      simp [TracerRef.Start, hs]
    · simp [TracingService.Start, opentracingStartSpanFromContext, hs]

/-- Witness for claim C8 at a concrete context carrying active span 7. -/
theorem c8_start_parenting_witness :
    ((TracingService.Start ⟨()⟩ ⟨none, some 7⟩ "op" [] 8).2.span.parent = some 7
     ∧ (TracingService.Start ⟨()⟩ ⟨none, some 7⟩ "op" [] 8).1.activeSpan = some 8) :=
  ((c8_start_parenting c2Service ⟨()⟩
      (some (otelGetTracer OtelProvider.noop "component-main"))
      (otelGetTracer OtelProvider.noop "component-main") rfl
      ⟨none, some 7⟩ "op" [] 8).1 7 rfl).2

/-- Claim C9: the modern-variant Start ignores its variadic span-start
options — for every global tracer value, context, span name, options
list, and span identity, the result equals the result with the empty
options list; options are never forwarded. -/
theorem c9_start_ignores_options (ts : OpentelemetryTracingService)
    (g : Option TracerRef) (ctx : Context) (n : String)
    (opts : List SpanStartOption) (fresh : SpanId) :
    OpentelemetryTracingService.Start ts g ctx n opts fresh =
      OpentelemetryTracingService.Start ts g ctx n [] fresh := rfl

/-- Claim C10: at process start the global tracer package variable holds
its zero value, nil, and a call to the modern-variant Start in that state
dereferences the nil interface — the panic, modelled as the none result —
rather than returning a no-op span. -/
theorem c10_start_before_init_dereferences_nil (ts : OpentelemetryTracingService)
    (ctx : Context) (n : String) (opts : List SpanStartOption) (fresh : SpanId) :
    initialInitState.globalTracer = none
    ∧ OpentelemetryTracingService.Start ts initialInitState.globalTracer ctx n opts fresh
        = none :=
  ⟨rfl, rfl⟩

end Tracing
